import Mathlib

/-!
Verification of the resource-collector component.

The component collects global resource statistics from the World Bank API,
accumulates them into collection runs, keeps a bounded run history, and
re-exposes the latest run as JSON-LD or publishes it downstream.

Shallow embedding conventions:
* `float64` values are only ever passed through (never computed with), so they
  are modelled as `Rat`.
* Timestamps are opaque RFC3339 strings, passed in as parameters where the Go
  code calls `time.Now()`.
* The network is modelled by oracle parameters: `fetchWorldBankData` takes the
  observable outcome of the single HTTP request, and the collection scan takes
  a fetch oracle producing per-(resource, region) outcomes.
* The global `runs` slice is threaded explicitly as a `List collectionRun`.
-/

/-- float64 values are pass-through data in this component; modelled as `Rat`. -/
abbrev Float64 := Rat

/-- Go struct `resourceDef`. -/
structure resourceDef where
  id : String
  name : String
  type : String
  unit : String
  description : String
  sourceURL : String
  indicator : String
deriving Repr, DecidableEq

/-- The anonymous region struct `{ Code, Name }`. -/
structure regionDef where
  code : String
  name : String
deriving Repr, DecidableEq

/-- Go struct `collectedValue`. -/
structure collectedValue where
  resourceId : String
  region : String
  regionName : String
  year : Int
  value : Float64
  unit : String
  source : String
  fetchedAt : String
deriving Repr, DecidableEq

/-- Go struct `collectionRun`. -/
structure collectionRun where
  id : String
  startedAt : String
  finishedAt : String
  status : String
  resources : Nat
  collected : Nat
  errors : List String
  values : List collectedValue
deriving Repr, DecidableEq

/-- The static resource catalog (package-level `catalog`). -/
def catalog : List resourceDef :=
  [ { id := "crude-oil", name := "Crude Oil", type := "energy", unit := "million barrels/day",
      description := "Global crude oil production",
      sourceURL := "https://api.worldbank.org/v2/country/all/indicator/", indicator := "EG.ELC.PETR.ZS" },
    { id := "natural-gas", name := "Natural Gas", type := "energy", unit := "billion cubic meters",
      description := "Natural gas production",
      sourceURL := "https://api.worldbank.org/v2/country/all/indicator/", indicator := "EG.ELC.NGAS.ZS" },
    { id := "coal", name := "Coal", type := "energy", unit := "million tonnes",
      description := "Coal production and consumption",
      sourceURL := "https://api.worldbank.org/v2/country/all/indicator/", indicator := "EG.ELC.COAL.ZS" },
    { id := "lithium", name := "Lithium", type := "mineral", unit := "thousand tonnes LCE",
      description := "Lithium production for batteries",
      sourceURL := "https://api.worldbank.org/v2/country/all/indicator/", indicator := "TX.VAL.MMTL.ZS.UN" },
    { id := "iron-ore", name := "Iron Ore", type := "mineral", unit := "million tonnes",
      description := "Iron ore extraction",
      sourceURL := "https://api.worldbank.org/v2/country/all/indicator/", indicator := "TX.VAL.MMTL.ZS.UN" },
    { id := "wheat", name := "Wheat", type := "food", unit := "million tonnes",
      description := "Global wheat production and trade",
      sourceURL := "https://api.worldbank.org/v2/country/all/indicator/", indicator := "AG.PRD.FOOD.XD" },
    { id := "rice", name := "Rice", type := "food", unit := "million tonnes",
      description := "Global rice production",
      sourceURL := "https://api.worldbank.org/v2/country/all/indicator/", indicator := "AG.PRD.FOOD.XD" },
    { id := "semiconductors", name := "Semiconductors", type := "technology", unit := "billion USD",
      description := "Semiconductor production and trade value",
      sourceURL := "https://api.worldbank.org/v2/country/all/indicator/", indicator := "NV.IND.MANF.ZS" },
    { id := "rare-earth", name := "Rare Earth Elements", type := "mineral", unit := "thousand tonnes",
      description := "Rare earth extraction",
      sourceURL := "https://api.worldbank.org/v2/country/all/indicator/", indicator := "TX.VAL.MMTL.ZS.UN" },
    { id := "copper", name := "Copper", type := "mineral", unit := "million tonnes",
      description := "Copper mining and refining",
      sourceURL := "https://api.worldbank.org/v2/country/all/indicator/", indicator := "TX.VAL.MMTL.ZS.UN" } ]

/-- The static region list (package-level `regions`). -/
def regions : List regionDef :=
  [ { code := "USA", name := "United States" }, { code := "CHN", name := "China" },
    { code := "JPN", name := "Japan" }, { code := "DEU", name := "Germany" },
    { code := "GBR", name := "United Kingdom" }, { code := "IND", name := "India" },
    { code := "FRA", name := "France" }, { code := "BRA", name := "Brazil" },
    { code := "SAU", name := "Saudi Arabia" }, { code := "RUS", name := "Russia" },
    { code := "AUS", name := "Australia" }, { code := "KOR", name := "South Korea" },
    { code := "TWN", name := "Taiwan" }, { code := "CHL", name := "Chile" },
    { code := "ARG", name := "Argentina" } ]

/-- `strings.TrimSpace` (the region/date strings involved are ASCII). -/
def trimSpace (s : String) : String :=
  ((s.toList.dropWhile Char.isWhitespace).reverse.dropWhile Char.isWhitespace).reverse.asString

/-- The string branch of Go `toInt`: `fmt.Sscanf(strings.TrimSpace(t), "%d", &n)`.
`Sscanf` with `%d` reads an optional sign followed by decimal digits and leaves
`n = 0` when nothing matches. -/
def digitsVal (cs : List Char) : Nat :=
  cs.foldl (fun n c => n * 10 + (c.toNat - 48)) 0

def toIntStr (s : String) : Int :=
  match (trimSpace s).toList with
  | '-' :: rest =>
    let ds := rest.takeWhile Char.isDigit
    if ds.isEmpty then 0 else -(digitsVal ds : Int)
  | '+' :: rest =>
    let ds := rest.takeWhile Char.isDigit
    if ds.isEmpty then 0 else (digitsVal ds : Int)
  | cs =>
    let ds := cs.takeWhile Char.isDigit
    if ds.isEmpty then 0 else (digitsVal ds : Int)

/-- Go `strVal`: type-assert to string (absent argument modelled as `""`) and trim. -/
def strVal (s : String) : String := trimSpace s

/-- One entry of the World Bank response data array (`Date`, `*Value`). -/
structure wbEntry where
  date : String
  value : Option Float64
deriving Repr, DecidableEq

/-- Go struct `wbDataPoint`. -/
structure wbDataPoint where
  year : Int
  value : Float64
deriving Repr, DecidableEq

/-- The parse outcome of the response body:
`notArray` when `json.Unmarshal(body, &raw)` fails, otherwise the top-level
array's length and the parse outcome of `raw[1]` as the entries slice. -/
inductive wbRaw where
  | notArray : wbRaw
  | arr : Nat → Option (List wbEntry) → wbRaw
deriving Repr, DecidableEq

/-- The observable outcome of `client.Get` inside `fetchWorldBankData`. -/
inductive httpResult where
  | failure : String → httpResult
  | response : Nat → wbRaw → httpResult
deriving Repr, DecidableEq

/-- The error taxonomy of `fetchWorldBankData`:
`transport` for `"http: %w"`, `protocol` for `"http %d"`, `parse` for
`"json: %w"` / `"no data"` / `"parse entries: %w"`. -/
inductive fetchError where
  | transport : String → fetchError
  | protocol : Nat → fetchError
  | parse : String → fetchError
deriving Repr, DecidableEq

/-- The per-entry loop of `fetchWorldBankData`: skip a nil value, skip a date
whose parsed year is 0, otherwise append the point. -/
def extractPoints (entries : List wbEntry) : List wbDataPoint :=
  entries.foldl (fun acc e =>
    match e.value with
    | none => acc
    | some v =>
      if toIntStr e.date = 0 then acc
      else acc ++ [{ year := toIntStr e.date, value := v }]) []

/-- The contribution of a single entry to the point list (loop-body semantics). -/
def pointOf (e : wbEntry) : List wbDataPoint :=
  match e.value with
  | none => []
  | some v => if toIntStr e.date = 0 then [] else [{ year := toIntStr e.date, value := v }]

/-- `sort.Slice(points, func(i, j) { return points[i].year > points[j].year })`:
sorting by descending year, modelled as insertion sort with the matching
comparator (the Go sort's output order among equal years is unspecified). -/
def sortDescYear (l : List wbDataPoint) : List wbDataPoint :=
  List.insertionSort (fun a b => b.year ≤ a.year) l

/-- The point-list production of a structurally successful fetch. -/
def fetchPoints (entries : List wbEntry) : List wbDataPoint :=
  sortDescYear (extractPoints entries)

/-- Parsing the body after a 2xx status: `json.Unmarshal` into `[]RawMessage`,
the `len(raw) < 2` check, then unmarshalling `raw[1]` into the entries. -/
def parseWBBody : wbRaw → Except fetchError (List wbDataPoint)
  | .notArray => .error (.parse "json")
  | .arr len entries =>
    if len < 2 then .error (.parse "no data")
    else
      match entries with
      | none => .error (.parse "parse entries")
      | some es => .ok (fetchPoints es)

/-- `fetchWorldBankData`, as a function of the observable HTTP outcome. -/
def fetchWorldBankData : httpResult → Except fetchError (List wbDataPoint)
  | .failure msg => .error (.transport msg)
  | .response status body =>
    if status < 200 ∨ status > 299 then .error (.protocol status)
    else parseWBBody body

/-- The per-(resource, region) fetch, as an oracle: argument order is
(indicator, region code, target year); an error carries the detail string
that `%v` would print. -/
abbrev fetchOracle := String → String → Int → Except String (List wbDataPoint)

/-- `fmt.Sprintf("%s/%s: %v", res.ID, reg.Code, err)`. -/
def pairErrorMsg (res : resourceDef) (reg : regionDef) (detail : String) : String :=
  res.id ++ "/" ++ reg.code ++ ": " ++ detail

/-- The `collectedValue` built for one returned point of one (resource, region)
pair; `now` is the run-wide timestamp captured at run start. -/
def mkCollectedValue (res : resourceDef) (reg : regionDef) (now : String)
    (p : wbDataPoint) : collectedValue :=
  { resourceId := res.id, region := reg.code, regionName := reg.name,
    year := p.year, value := p.value, unit := res.unit,
    source := "World Bank API", fetchedAt := now }

/-- The nested resources × regions scan of `executeCollection`, accumulating
the error list and the value list. -/
def scanPairs (fetch : fetchOracle) (now : String) (year : Int)
    (targets : List resourceDef) : List String × List collectedValue :=
  targets.foldl (fun acc res =>
    regions.foldl (fun acc2 reg =>
      match fetch res.indicator reg.code year with
      | .error e => (acc2.1 ++ [pairErrorMsg res reg e], acc2.2)
      | .ok points => (acc2.1, acc2.2 ++ points.map (mkCollectedValue res reg now))) acc)
    ([], [])

/-- Target-resource resolution of `executeCollection`: a non-empty filter keeps
the catalog entries whose id is in the filter, in catalog order. -/
def resolveTargets (filterIDs : List String) : List resourceDef :=
  if filterIDs.length > 0 then catalog.filter (fun r => filterIDs.contains r.id)
  else catalog

/-- `executeCollection`: the run id, start timestamp and finish timestamp are
parameters standing for the `time.Now()` calls. -/
def executeCollection (fetch : fetchOracle) (now finishedAt runId : String)
    (filterIDs : List String) (year : Int) : collectionRun :=
  let targets := resolveTargets filterIDs
  let scanned := scanPairs fetch now year targets
  { id := runId, startedAt := now, finishedAt := finishedAt,
    status :=
      if scanned.1.length > 0 ∧ scanned.2.length = 0 then "failed"
      else if scanned.1.length > 0 then "partial"
      else "completed",
    resources := targets.length,
    collected := scanned.2.length,
    errors := scanned.1,
    values := scanned.2 }

/-- The history append at the end of `executeCollection`:
`runs = append(runs, run); if len(runs) > 50 { runs = runs[len(runs)-50:] }`. -/
def appendRun (rs : List collectionRun) (r : collectionRun) : List collectionRun :=
  let rs2 := rs ++ [r]
  if rs2.length > 50 then rs2.drop (rs2.length - 50) else rs2

/-- `executeCollection` together with its store append, threading the global
`runs` slice explicitly. -/
def executeCollectionStore (rs : List collectionRun) (fetch : fetchOracle)
    (now finishedAt runId : String) (filterIDs : List String) (year : Int) :
    collectionRun × List collectionRun :=
  let run := executeCollection fetch now finishedAt runId filterIDs year
  (run, appendRun rs run)

/-- The summary map built by the `collector.status` arm of `callTool`. -/
structure runSummary where
  id : String
  startedAt : String
  finishedAt : String
  status : String
  resources : Nat
  collected : Nat
  errorCount : Nat
deriving Repr, DecidableEq

def summarize (r : collectionRun) : runSummary :=
  { id := r.id, startedAt := r.startedAt, finishedAt := r.finishedAt,
    status := r.status, resources := r.resources, collected := r.collected,
    errorCount := r.errors.length }

/-- The `collector.status` arm of `callTool`: the last 10 runs, summarized,
with `count = len(summaries)`; this arm never returns an error. -/
def statusTool (rs : List collectionRun) : Except String (List runSummary × Nat) :=
  let recent := if rs.length > 10 then rs.drop (rs.length - 10) else rs
  let summaries := recent.map summarize
  Except.ok (summaries, summaries.length)

/-- The `collector.get_collected` arm of `callTool`, taking the raw string
arguments (absent arguments modelled as `""`, per `strVal`). -/
def getCollectedTool (rs : List collectionRun) (resourceIdArg runIdArg : String) :
    Except String (String × List collectedValue × Nat) :=
  let resourceID := strVal resourceIdArg
  let runID := strVal runIdArg
  let target : Option collectionRun :=
    if runID ≠ "" then rs.find? (fun r => r.id == runID)
    else if rs.length > 0 then rs.getLast? else none
  match target with
  | none => Except.error "no collection runs found"
  | some t =>
    let values :=
      if resourceID ≠ "" then t.values.filter (fun v => v.resourceId == resourceID)
      else t.values
    Except.ok (t.id, values, values.length)

/-- Go struct `jsonldResource`. -/
structure jsonldResource where
  context : String
  type : String
  id : String
  name : String
  description : String
  region : String
  year : Int
  value : Float64
  unit : String
  source : String
  dateCreated : String
deriving Repr, DecidableEq

/-- The `@id` built for one observation node. -/
def observationId (v : collectedValue) : String :=
  "https://resources.gftd.ai/content/resource/" ++ v.resourceId ++ "/"
    ++ v.region.toLower ++ "/" ++ toString v.year

/-- The observation node built for one collected value in `exportJSONLD`. -/
def mkObservation (v : collectedValue) : jsonldResource :=
  { context := "https://schema.org/", type := "Observation",
    id := observationId v,
    name := v.resourceId ++ " - " ++ v.regionName ++ " (" ++ toString v.year ++ ")",
    description := "Collected value for " ++ v.resourceId ++ " in " ++ v.regionName
      ++ ", year " ++ toString v.year,
    region := v.regionName, year := v.year, value := v.value, unit := v.unit,
    source := v.source, dateCreated := v.fetchedAt }

/-- The dataset envelope returned by `exportJSONLD`. -/
structure jsonldDataset where
  context : String
  type : String
  id : String
  name : String
  dateCreated : String
  graph : List jsonldResource
  count : Nat
deriving Repr, DecidableEq

/-- `exportJSONLD` (the loop's `continue` on a non-matching resource id is the
filter keeping values with `resourceID == "" || v.ResourceID == resourceID`). -/
def exportJSONLD (rs : List collectionRun) (resourceID : String) :
    Except String jsonldDataset :=
  match rs.getLast? with
  | none => Except.error "no collection runs available; call collector.run first"
  | some latest =>
    let graph := (latest.values.filter
      (fun v => resourceID == "" || v.resourceId == resourceID)).map mkObservation
    Except.ok
      { context := "https://schema.org/", type := "Dataset",
        id := "https://resources.gftd.ai/content/resource/collection",
        name := "GFTD Global Resource Collection",
        dateCreated := latest.finishedAt, graph := graph, count := graph.length }

/-- The result payloads `publishToMCP` can return as a successful tool result. -/
inductive publishResult where
  | skipped : String → publishResult
  | published : Nat → String → String → publishResult
  | errorResult : String → publishResult
deriving Repr, DecidableEq

/-- `publishToMCP`: `remote` is the outcome of the single
`callExternalMCPTool` invocation; the second component counts how many
downstream calls were made. -/
def publishToMCP (rs : List collectionRun) (targetURL : String)
    (remote : Except String String) : Except String publishResult × Nat :=
  match rs.getLast? with
  | none => (Except.error "no collection runs; call collector.run first", 0)
  | some latest =>
    if latest.values.length = 0 then
      (Except.ok (publishResult.skipped "no values to publish"), 0)
    else
      match remote with
      | .error e => (Except.ok (publishResult.errorResult e), 1)
      | .ok result =>
        (Except.ok (publishResult.published latest.values.length targetURL result), 1)

/-- The error-list contribution of one (resource, region) pair of the scan. -/
def pairErr (fetch : fetchOracle) (year : Int) (res : resourceDef)
    (reg : regionDef) : List String :=
  match fetch res.indicator reg.code year with
  | .error e => [pairErrorMsg res reg e]
  | .ok _ => []

/-- The value-list contribution of one (resource, region) pair of the scan. -/
def pairVals (fetch : fetchOracle) (now : String) (year : Int) (res : resourceDef)
    (reg : regionDef) : List collectedValue :=
  match fetch res.indicator reg.code year with
  | .error _ => []
  | .ok points => points.map (mkCollectedValue res reg now)

/-- Structural failure of the response body: not an array, an array of fewer
than two elements, or an entries element that does not parse — exactly the
conditions under which `fetchWorldBankData` takes a parse-error return path. -/
def envelopeMalformed : wbRaw → Bool
  | .notArray => true
  | .arr len entries => decide (len < 2) || entries.isNone

/-- A fetch oracle on which every pair fails. -/
def fetchAllFail : fetchOracle := fun _ _ _ => Except.error "connection refused"

/-- A fetch oracle failing for USA, returning one point for CHN, empty elsewhere. -/
def fetchMixed : fetchOracle := fun _ code _ =>
  if code == "USA" then Except.error "boom"
  else if code == "CHN" then Except.ok [{ year := 2023, value := 5 }]
  else Except.ok []

/-- A concrete terminal run with no values. -/
def emptyRun : collectionRun :=
  { id := "run-1", startedAt := "2026-01-01T00:00:00Z",
    finishedAt := "2026-01-01T00:00:01Z", status := "completed",
    resources := 0, collected := 0, errors := [], values := [] }

/-- A concrete collected value. -/
def sampleValue : collectedValue :=
  { resourceId := "crude-oil", region := "USA", regionName := "United States",
    year := 2023, value := 5, unit := "million barrels/day",
    source := "World Bank API", fetchedAt := "2026-01-01T00:00:00Z" }

/-- A concrete terminal run holding one value. -/
def sampleRun : collectionRun :=
  { id := "run-2", startedAt := "2026-01-01T00:00:00Z",
    finishedAt := "2026-01-01T00:00:09Z", status := "completed",
    resources := 1, collected := 1, errors := [], values := [sampleValue] }

/-- Concrete World Bank entries exercising the per-entry skip rules. -/
def sampleEntries : List wbEntry :=
  [ { date := "2020", value := some 1 },
    { date := "bad", value := some 2 },
    { date := "2023", value := none },
    { date := "2024", value := some 3 } ]

instance : IsTotal wbDataPoint (fun a b => b.year ≤ a.year) :=
  ⟨fun a b => le_total b.year a.year⟩

instance : IsTrans wbDataPoint (fun a b => b.year ≤ a.year) :=
  ⟨fun _ _ _ h1 h2 => le_trans h2 h1⟩

theorem foldl_append_pair {α β γ : Type} (step : List β × List γ → α → List β × List γ)
    (g : α → List β) (h : α → List γ)
    (hstep : ∀ acc x, step acc x = (acc.1 ++ g x, acc.2 ++ h x))
    (l : List α) : ∀ acc : List β × List γ,
      l.foldl step acc = (acc.1 ++ l.flatMap g, acc.2 ++ l.flatMap h) := by
  induction l with
  | nil => intro acc; simp
  | cons x xs ih =>
    intro acc
    rw [List.foldl_cons, hstep, ih]
    simp

theorem foldl_append_list {α β : Type} (step : List β → α → List β) (g : α → List β)
    (hstep : ∀ acc x, step acc x = acc ++ g x)
    (l : List α) : ∀ acc : List β, l.foldl step acc = acc ++ l.flatMap g := by
  induction l with
  | nil => intro acc; simp
  | cons x xs ih =>
    intro acc
    rw [List.foldl_cons, hstep, ih]
    simp

theorem flatMap_filter_keep {α β : Type} (p : α → Bool) (g : α → List β)
    (hg : ∀ x, p x = false → g x = []) (l : List α) :
    (l.filter p).flatMap g = l.flatMap g := by
  induction l with
  | nil => rfl
  | cons x xs ih =>
    by_cases hx : p x
    · simp [List.filter_cons, hx, ih]
    · simp [List.filter_cons, hx, ih, hg x (by simpa using hx)]

theorem scanPairs_eq (fetch : fetchOracle) (now : String) (year : Int)
    (targets : List resourceDef) :
    scanPairs fetch now year targets =
      (targets.flatMap (fun res => regions.flatMap (pairErr fetch year res)),
       targets.flatMap (fun res => regions.flatMap (pairVals fetch now year res))) := by
  have hinner : ∀ (res : resourceDef) (acc : List String × List collectedValue),
      regions.foldl (fun acc2 reg =>
        match fetch res.indicator reg.code year with
        | .error e => (acc2.1 ++ [pairErrorMsg res reg e], acc2.2)
        | .ok points => (acc2.1, acc2.2 ++ points.map (mkCollectedValue res reg now))) acc
      = (acc.1 ++ regions.flatMap (pairErr fetch year res),
         acc.2 ++ regions.flatMap (pairVals fetch now year res)) := by
    intro res acc
    apply foldl_append_pair
    intro acc2 reg
    unfold pairErr pairVals
    cases fetch res.indicator reg.code year <;> simp
  have houter := foldl_append_pair
    (fun acc res =>
      regions.foldl (fun acc2 reg =>
        match fetch res.indicator reg.code year with
        | .error e => (acc2.1 ++ [pairErrorMsg res reg e], acc2.2)
        | .ok points => (acc2.1, acc2.2 ++ points.map (mkCollectedValue res reg now))) acc)
    (fun res => regions.flatMap (pairErr fetch year res))
    (fun res => regions.flatMap (pairVals fetch now year res))
    (fun acc res => hinner res acc) targets ([], [])
  simpa [scanPairs] using houter

theorem extractPoints_eq_flatMap (entries : List wbEntry) :
    extractPoints entries = entries.flatMap pointOf := by
  have h := foldl_append_list
    (fun acc e =>
      match e.value with
      | none => acc
      | some v =>
        if toIntStr e.date = 0 then acc
        else acc ++ [{ year := toIntStr e.date, value := v }])
    pointOf
    (by
      intro acc e
      cases hv : e.value with
      | none => simp [pointOf, hv]
      | some v => by_cases h0 : toIntStr e.date = 0 <;> simp [pointOf, hv, h0])
    entries []
  simpa [extractPoints] using h

theorem runStatus_cases (e : List String) (v : List collectedValue) (st : String)
    (hst : st = if e.length > 0 ∧ v.length = 0 then "failed"
                else if e.length > 0 then "partial" else "completed") :
    (st = "completed" ↔ e = [])
    ∧ (st = "failed" ↔ e ≠ [] ∧ v.length = 0)
    ∧ (st = "partial" ↔ e ≠ [] ∧ 0 < v.length)
    ∧ (st = "completed" ∨ st = "failed" ∨ st = "partial") := by
  subst hst
  by_cases he : e = [] <;> by_cases hv : v.length = 0 <;>
    simp [he, hv, List.length_pos.mpr, Nat.pos_of_ne_zero, List.ne_nil_of_length_pos]

/-- Claim C1: for every run produced by executeCollection, the terminal status
is "completed" iff the error list is empty, "failed" iff the error list is
non-empty and the collected count is 0, "partial" iff the error list is
non-empty and the collected count is positive; the three cases are exhaustive
and mutually exclusive (the statuses being pairwise distinct strings), and the
run's collected count equals the length of its value list. -/
theorem executeCollection_status_derivation (fetch : fetchOracle)
    (now finishedAt runId : String) (filterIDs : List String) (year : Int) :
    ((executeCollection fetch now finishedAt runId filterIDs year).status = "completed"
      ↔ (executeCollection fetch now finishedAt runId filterIDs year).errors = [])
    ∧ ((executeCollection fetch now finishedAt runId filterIDs year).status = "failed"
      ↔ (executeCollection fetch now finishedAt runId filterIDs year).errors ≠ []
        ∧ (executeCollection fetch now finishedAt runId filterIDs year).collected = 0)
    ∧ ((executeCollection fetch now finishedAt runId filterIDs year).status = "partial"
      ↔ (executeCollection fetch now finishedAt runId filterIDs year).errors ≠ []
        ∧ 0 < (executeCollection fetch now finishedAt runId filterIDs year).collected)
    ∧ ((executeCollection fetch now finishedAt runId filterIDs year).status = "completed"
      ∨ (executeCollection fetch now finishedAt runId filterIDs year).status = "failed"
      ∨ (executeCollection fetch now finishedAt runId filterIDs year).status = "partial")
    ∧ (executeCollection fetch now finishedAt runId filterIDs year).collected
      = (executeCollection fetch now finishedAt runId filterIDs year).values.length := by
  have h := runStatus_cases
    (scanPairs fetch now year (resolveTargets filterIDs)).1
    (scanPairs fetch now year (resolveTargets filterIDs)).2
    (executeCollection fetch now finishedAt runId filterIDs year).status rfl
  exact ⟨h.1, h.2.1, h.2.2.1, h.2.2.2, rfl⟩

theorem executeCollection_status_derivation_witness :
    (executeCollection fetchAllFail "t0" "t1" "run-w1" ["crude-oil"] 0).status = "failed" := by
  have h := executeCollection_status_derivation fetchAllFail "t0" "t1" "run-w1" ["crude-oil"] 0
  exact h.2.1.mpr ⟨by decide, by decide⟩

/-- Claim C2: the scan visits every (resource, region) pair; a failed fetch
contributes exactly the formatted message "resourceId/regionCode: detail" to
the error list and nothing to the value list (the scan continuing), a
successful fetch contributes exactly its points mapped to collected values
carrying the resource's id and unit, the region's code and name, the point's
year and value, the fixed source label and the run-wide fetch timestamp; no
fetch failure escapes executeCollection (its result type is a plain run). -/
theorem executeCollection_error_recovery (fetch : fetchOracle)
    (now finishedAt runId : String) (filterIDs : List String) (year : Int) :
    (executeCollection fetch now finishedAt runId filterIDs year).errors
      = (resolveTargets filterIDs).flatMap (fun res => regions.flatMap (pairErr fetch year res))
    ∧ (executeCollection fetch now finishedAt runId filterIDs year).values
      = (resolveTargets filterIDs).flatMap (fun res => regions.flatMap (pairVals fetch now year res))
    ∧ (∀ res reg e, fetch res.indicator reg.code year = Except.error e →
        pairErr fetch year res reg = [res.id ++ "/" ++ reg.code ++ ": " ++ e]
          ∧ pairVals fetch now year res reg = [])
    ∧ (∀ res reg points, fetch res.indicator reg.code year = Except.ok points →
        pairErr fetch year res reg = []
          ∧ pairVals fetch now year res reg = points.map (mkCollectedValue res reg now))
    ∧ (∀ v ∈ (executeCollection fetch now finishedAt runId filterIDs year).values,
        v.source = "World Bank API" ∧ v.fetchedAt = now) := by
  have hscan := scanPairs_eq fetch now year (resolveTargets filterIDs)
  refine ⟨?_, ?_, ?_, ?_, ?_⟩
  · show (scanPairs fetch now year (resolveTargets filterIDs)).1 = _
    rw [hscan]
  · show (scanPairs fetch now year (resolveTargets filterIDs)).2 = _
    rw [hscan]
  · intro res reg e hf
    constructor <;> simp [pairErr, pairVals, hf, pairErrorMsg]
  · intro res reg points hf
    constructor <;> simp [pairErr, pairVals, hf]
  · intro v hv
    have hv2 : v ∈ (scanPairs fetch now year (resolveTargets filterIDs)).2 := hv
    rw [hscan] at hv2
    simp only [List.mem_flatMap] at hv2
    obtain ⟨res, _, reg, _, hvin⟩ := hv2
    unfold pairVals at hvin
    cases hfr : fetch res.indicator reg.code year with
    | error e => rw [hfr] at hvin; simp at hvin
    | ok points =>
      rw [hfr] at hvin
      simp only [List.mem_map] at hvin
      obtain ⟨p, _, hpv⟩ := hvin
      subst hpv
      exact ⟨rfl, rfl⟩

theorem executeCollection_error_recovery_witness :
    (executeCollection fetchMixed "t0" "t1" "run-w2" ["crude-oil"] 0).errors
      = ["crude-oil/USA: boom"]
    ∧ (executeCollection fetchMixed "t0" "t1" "run-w2" ["crude-oil"] 0).values
      = [{ resourceId := "crude-oil", region := "CHN", regionName := "China",
           year := 2023, value := 5, unit := "million barrels/day",
           source := "World Bank API", fetchedAt := "t0" }] := by
  have h := executeCollection_error_recovery fetchMixed "t0" "t1" "run-w2" ["crude-oil"] 0
  exact ⟨h.1.trans (by decide), h.2.1.trans (by decide)⟩

/-- Claim C3 counterexample: with an empty filter set passed to the collection,
the resolved target set is the full catalog (10 resources, reflected in the
run's requested-resource count), not the empty set of catalog entries whose id
lies in the empty filter. -/
theorem resolveTargets_empty_filter_counterexample :
    (executeCollection (fun _ _ _ => Except.ok []) "t0" "t1" "run-c3" [] 0).resources = 10
    ∧ (catalog.filter (fun r => List.contains ([] : List String) r.id)).length = 0
    ∧ (10 : Nat) ≠ 0 :=
  ⟨rfl, rfl, by decide⟩

/-- Claim C3 (amended): for any non-empty filter set F, the resolved target
set equals the catalog entries whose id is in F, in catalog order (it is a
sublist of the catalog); when no filter is given — the absent argument and the
empty list coincide in the code — the full catalog is used; and the run's
requested-resource count equals the size of the resolved set. -/
theorem resolveTargets_filter_semantics (fetch : fetchOracle)
    (now finishedAt runId : String) (filterIDs : List String) (year : Int) :
    (executeCollection fetch now finishedAt runId filterIDs year).resources
      = (resolveTargets filterIDs).length
    ∧ (resolveTargets filterIDs).Sublist catalog
    ∧ (filterIDs ≠ [] →
        resolveTargets filterIDs = catalog.filter (fun r => filterIDs.contains r.id))
    ∧ (filterIDs ≠ [] →
        ∀ r, r ∈ resolveTargets filterIDs ↔ r ∈ catalog ∧ r.id ∈ filterIDs)
    ∧ (filterIDs = [] → resolveTargets filterIDs = catalog) := by
  refine ⟨rfl, ?_, ?_, ?_, ?_⟩
  · unfold resolveTargets
    split
    · exact List.filter_sublist catalog
    · exact List.Sublist.refl catalog
  · intro hne
    unfold resolveTargets
    rw [if_pos (List.length_pos.mpr hne)]
  · intro hne r
    unfold resolveTargets
    rw [if_pos (List.length_pos.mpr hne)]
    simp [List.mem_filter, List.contains, List.elem_iff]
  · intro he
    subst he
    rfl

theorem resolveTargets_filter_semantics_witness :
    (executeCollection (fun _ _ _ => Except.ok []) "t0" "t1" "run-w3"
        ["natural-gas", "crude-oil"] 0).resources
      = (resolveTargets ["natural-gas", "crude-oil"]).length
    ∧ resolveTargets ["natural-gas", "crude-oil"]
      = catalog.filter (fun r => List.contains ["natural-gas", "crude-oil"] r.id)
    ∧ (resolveTargets ["natural-gas", "crude-oil"]).map resourceDef.id
      = ["crude-oil", "natural-gas"] := by
  have h := resolveTargets_filter_semantics (fun _ _ _ => Except.ok []) "t0" "t1" "run-w3"
    ["natural-gas", "crude-oil"] 0
  exact ⟨h.1, h.2.2.1 (by decide), by decide⟩

/-- Claim C4: the history append keeps the store at 50 runs at most, the
result is the drop of the oldest entries from the appended sequence (FIFO
eviction from the front only), hence a suffix of it — insertion order of
the survivors is preserved — and the newly appended run is always the last
surviving entry. -/
theorem appendRun_capacity_fifo (rs : List collectionRun) (r : collectionRun) :
    (appendRun rs r).length ≤ 50
    ∧ appendRun rs r = (rs ++ [r]).drop (rs.length + 1 - 50)
    ∧ (appendRun rs r).IsSuffix (rs ++ [r])
    ∧ (appendRun rs r).getLast? = some r := by
  have hlen : (rs ++ [r]).length = rs.length + 1 := by simp
  have hdrop : appendRun rs r = (rs ++ [r]).drop (rs.length + 1 - 50) := by
    unfold appendRun
    by_cases hc : (rs ++ [r]).length > 50
    · rw [if_pos hc, hlen]
    · rw [if_neg hc]
      rw [hlen] at hc
      have h0 : rs.length + 1 - 50 = 0 := by omega
      rw [h0, List.drop_zero]
  refine ⟨?_, hdrop, ?_, ?_⟩
  · rw [hdrop, List.length_drop, hlen]
    omega
  · rw [hdrop]
    exact List.drop_suffix _ _
  · rw [hdrop]
    have hk : rs.length + 1 - 50 ≤ rs.length := by omega
    rw [List.drop_append_of_le_length hk]
    exact List.getLast?_concat _

/-- Claim C5: for publish with at least one run in the store: if the latest
run's value list is empty, the result is "skipped" and zero downstream calls
are made; otherwise exactly one remote call is made, and a remote failure is
returned as an "error" result carrying the failure detail as data inside a
successful tool result, not raised as a dispatcher-level error. -/
theorem publishToMCP_skip_and_error_handling (rs : List collectionRun)
    (targetURL : String) (remote : Except String String) (latest : collectionRun)
    (hl : rs.getLast? = some latest) :
    (latest.values = [] →
      publishToMCP rs targetURL remote
        = (Except.ok (publishResult.skipped "no values to publish"), 0))
    ∧ (latest.values ≠ [] →
      (publishToMCP rs targetURL remote).2 = 1
      ∧ ∀ e, remote = Except.error e →
          publishToMCP rs targetURL remote
            = (Except.ok (publishResult.errorResult e), 1)) := by
  have hbody : publishToMCP rs targetURL remote
      = (if latest.values.length = 0 then
          (Except.ok (publishResult.skipped "no values to publish"), 0)
        else
          match remote with
          | .error e => (Except.ok (publishResult.errorResult e), 1)
          | .ok result =>
            (Except.ok (publishResult.published latest.values.length targetURL result), 1)) := by
    unfold publishToMCP
    rw [hl]
  rw [hbody]
  constructor
  · intro hv
    rw [if_pos (by simp [hv])]
  · intro hv
    rw [if_neg (fun h => hv (List.length_eq_zero.mp h))]
    constructor
    · cases remote <;> rfl
    · intro e he
      subst he
      rfl

theorem publishToMCP_skip_and_error_handling_witness :
    publishToMCP [emptyRun] "https://example.invalid/mcp" (Except.error "down")
      = (Except.ok (publishResult.skipped "no values to publish"), 0) := by
  have h := publishToMCP_skip_and_error_handling [emptyRun]
    "https://example.invalid/mcp" (Except.error "down") emptyRun (by simp)
  exact h.1 rfl

/-- Claim C6: in a successful fetch, entries with a missing value and entries
whose date fails to parse to a (non-zero) year contribute nothing — filtering
them away does not change the extracted points — the resulting points are a
permutation of the extracted ones sorted descending by year, every point comes
from an entry with a present value and that parsed year, and any 2xx response
whose envelope parses structurally yields Except.ok regardless of how bad the
individual entries are. -/
theorem fetchPoints_entry_handling (entries : List wbEntry) :
    List.Pairwise (fun a b : wbDataPoint => b.year ≤ a.year) (fetchPoints entries)
    ∧ (fetchPoints entries).Perm (extractPoints entries)
    ∧ extractPoints entries
      = extractPoints (entries.filter
          (fun e => e.value.isSome && decide (toIntStr e.date ≠ 0)))
    ∧ (∀ p ∈ fetchPoints entries, ∃ e ∈ entries,
        e.value = some p.value ∧ toIntStr e.date = p.year ∧ p.year ≠ 0)
    ∧ (∀ (st len : Nat) (es : List wbEntry), 200 ≤ st → st ≤ 299 → 2 ≤ len →
        fetchWorldBankData (httpResult.response st (wbRaw.arr len (some es)))
          = Except.ok (fetchPoints es)) := by
  have hkeep : ∀ e : wbEntry,
      (e.value.isSome && decide (toIntStr e.date ≠ 0)) = false → pointOf e = [] := by
    intro e hfe
    cases hv : e.value with
    | none => simp [pointOf, hv]
    | some v =>
      rw [hv] at hfe
      simp at hfe
      simp [pointOf, hv, hfe]
  refine ⟨?_, ?_, ?_, ?_, ?_⟩
  · exact List.sorted_insertionSort (fun a b => b.year ≤ a.year) (extractPoints entries)
  · exact List.perm_insertionSort _ _
  · rw [extractPoints_eq_flatMap, extractPoints_eq_flatMap]
    exact (flatMap_filter_keep _ pointOf hkeep entries).symm
  · intro p hp
    have hp0 : p ∈ List.insertionSort (fun a b : wbDataPoint => b.year ≤ a.year)
        (extractPoints entries) := hp
    have hp2 : p ∈ extractPoints entries :=
      (List.perm_insertionSort (fun a b : wbDataPoint => b.year ≤ a.year)
        (extractPoints entries)).mem_iff.mp hp0
    rw [extractPoints_eq_flatMap] at hp2
    simp only [List.mem_flatMap] at hp2
    obtain ⟨e, he, hpe⟩ := hp2
    refine ⟨e, he, ?_⟩
    cases hv : e.value with
    | none => simp [pointOf, hv] at hpe
    | some v =>
      by_cases h0 : toIntStr e.date = 0
      · simp [pointOf, hv, h0] at hpe
      · simp [pointOf, hv, h0] at hpe
        subst hpe
        exact ⟨rfl, rfl, h0⟩
  · intro st len es h1 h2 h3
    have hst : ¬(st < 200 ∨ st > 299) := by omega
    have hlen : ¬(len < 2) := by omega
    simp only [fetchWorldBankData, parseWBBody]
    rw [if_neg hst, if_neg hlen]

theorem fetchPoints_entry_handling_witness :
    List.Pairwise (fun a b : wbDataPoint => b.year ≤ a.year) (fetchPoints sampleEntries)
    ∧ fetchWorldBankData (httpResult.response 200 (wbRaw.arr 2 (some sampleEntries)))
      = Except.ok (fetchPoints sampleEntries)
    ∧ fetchPoints sampleEntries
      = [{ year := 2024, value := 3 }, { year := 2020, value := 1 }] := by
  have h := fetchPoints_entry_handling sampleEntries
  exact ⟨h.1, h.2.2.2.2 200 2 sampleEntries (by decide) (by decide) (by decide), by decide⟩

/-- Claim C7 counterexample: a 2xx response whose envelope is a three-element
array with parsable entries is accepted (the code only rejects arrays with
fewer than two elements), whereas the claim — ParseError exactly when the
envelope is not a two-element array — demands a parse failure here. -/
theorem fetchWorldBankData_three_element_counterexample :
    (3 : Nat) ≠ 2
    ∧ fetchWorldBankData (httpResult.response 200 (wbRaw.arr 3 (some [])))
      = Except.ok [] :=
  ⟨by decide, rfl⟩

/-- Claim C7 (amended): a connection failure yields TransportError; a response
with a non-2xx status yields ProtocolError; and for a 2xx response the result
is a ParseError exactly when the envelope is not an array, is an array of
fewer than two elements, or its entries element does not parse. -/
theorem fetchWorldBankData_error_taxonomy (res : httpResult) :
    (∀ msg, res = httpResult.failure msg →
      fetchWorldBankData res = Except.error (fetchError.transport msg))
    ∧ (∀ st body, res = httpResult.response st body → st < 200 ∨ st > 299 →
      fetchWorldBankData res = Except.error (fetchError.protocol st))
    ∧ (∀ st body, res = httpResult.response st body → 200 ≤ st → st ≤ 299 →
      ((∃ d, fetchWorldBankData res = Except.error (fetchError.parse d))
        ↔ envelopeMalformed body = true)) := by
  refine ⟨?_, ?_, ?_⟩
  · intro msg hres
    subst hres
    rfl
  · intro st body hres hst
    subst hres
    simp only [fetchWorldBankData]
    rw [if_pos hst]
  · intro st body hres h1 h2
    subst hres
    have hok : ¬(st < 200 ∨ st > 299) := by omega
    simp only [fetchWorldBankData]
    rw [if_neg hok]
    cases body with
    | notArray => simp [parseWBBody, envelopeMalformed]
    | arr len entries =>
      cases entries with
      | none => by_cases hlen : len < 2 <;> simp [parseWBBody, envelopeMalformed, hlen]
      | some es => by_cases hlen : len < 2 <;> simp [parseWBBody, envelopeMalformed, hlen]

theorem fetchWorldBankData_error_taxonomy_witness :
    fetchWorldBankData (httpResult.failure "connection refused")
      = Except.error (fetchError.transport "connection refused")
    ∧ fetchWorldBankData (httpResult.response 404 (wbRaw.arr 2 (some [])))
      = Except.error (fetchError.protocol 404)
    ∧ fetchWorldBankData (httpResult.response 200 wbRaw.notArray)
      = Except.error (fetchError.parse "json") := by
  refine ⟨?_, ?_, rfl⟩
  · exact (fetchWorldBankData_error_taxonomy (httpResult.failure "connection refused")).1 _ rfl
  · exact (fetchWorldBankData_error_taxonomy
      (httpResult.response 404 (wbRaw.arr 2 (some [])))).2.1 404 _ rfl (by omega)

/-- Claim C8: collector.status returns at most the 10 most recent runs (the
drop of all but the last 10), its count field equals the number of summaries,
the operation succeeds with an empty result when no runs exist, and a summary
is a pure function of the run's status fields — replacing the run's value list
never changes its summary, so values are never exposed in the summary view. -/
theorem statusTool_summaries_bounded (rs : List collectionRun) :
    statusTool rs = Except.ok ((rs.drop (rs.length - 10)).map summarize, min rs.length 10)
    ∧ min rs.length 10 ≤ 10
    ∧ statusTool ([] : List collectionRun) = Except.ok ([], 0)
    ∧ (∀ (r : collectionRun) (vs : List collectedValue),
        summarize { r with values := vs } = summarize r) := by
  refine ⟨?_, by omega, rfl, fun r vs => rfl⟩
  simp only [statusTool]
  by_cases h : rs.length > 10
  · rw [if_pos h]
    have hmin : min rs.length 10 = 10 := by omega
    have hlen : ((rs.drop (rs.length - 10)).map summarize).length = 10 := by
      rw [List.length_map, List.length_drop]
      omega
    rw [hmin, hlen]
  · rw [if_neg h]
    have h0 : rs.length - 10 = 0 := by omega
    have hmin : min rs.length 10 = rs.length := by omega
    rw [h0, List.drop_zero, hmin, List.length_map]

theorem statusTool_summaries_bounded_witness :
    statusTool (List.replicate 12 emptyRun)
      = Except.ok (((List.replicate 12 emptyRun).drop 2).map summarize, 10) :=
  (statusTool_summaries_bounded (List.replicate 12 emptyRun)).1.trans rfl

/-- Claim C9: export fails with the empty-state error when no run exists; with
at least one run it reads the latest run and returns a dataset envelope whose
graph is the latest run's (optionally resource-filtered) values mapped to
observation nodes, whose dateCreated equals the run's finish time, and whose
count equals the number of emitted nodes; every node's identifier is built
from the resource id, the lowercased region code and the year. -/
theorem exportJSONLD_empty_state_and_shape (rs : List collectionRun)
    (resourceID : String) :
    (rs = [] → exportJSONLD rs resourceID
      = Except.error "no collection runs available; call collector.run first")
    ∧ (∀ latest, rs.getLast? = some latest →
        exportJSONLD rs resourceID
          = Except.ok
              { context := "https://schema.org/", type := "Dataset",
                id := "https://resources.gftd.ai/content/resource/collection",
                name := "GFTD Global Resource Collection",
                dateCreated := latest.finishedAt,
                graph := (latest.values.filter
                  (fun v => resourceID == "" || v.resourceId == resourceID)).map mkObservation,
                count := ((latest.values.filter
                  (fun v => resourceID == "" || v.resourceId == resourceID)).map
                    mkObservation).length })
    ∧ (∀ v : collectedValue, (mkObservation v).id
        = "https://resources.gftd.ai/content/resource/" ++ v.resourceId ++ "/"
          ++ v.region.toLower ++ "/" ++ toString v.year) := by
  refine ⟨?_, ?_, fun v => rfl⟩
  · intro h
    subst h
    rfl
  · intro latest hl
    unfold exportJSONLD
    rw [hl]

theorem exportJSONLD_empty_state_and_shape_witness :
    exportJSONLD ([] : List collectionRun) ""
      = Except.error "no collection runs available; call collector.run first"
    ∧ exportJSONLD [sampleRun] ""
      = Except.ok
          { context := "https://schema.org/", type := "Dataset",
            id := "https://resources.gftd.ai/content/resource/collection",
            name := "GFTD Global Resource Collection",
            dateCreated := "2026-01-01T00:00:09Z",
            graph := [mkObservation sampleValue], count := 1 } := by
  refine ⟨(exportJSONLD_empty_state_and_shape ([] : List collectionRun) "").1 rfl, ?_⟩
  exact (((exportJSONLD_empty_state_and_shape [sampleRun] "").2.1 sampleRun rfl)).trans rfl

/-- Claim C10 counterexample: a whitespace-only run_id argument is a non-empty
argument that matches no stored run id, yet the operation trims it to the
empty string and falls back to the latest run (returning its values) instead
of failing with "no collection runs found". -/
theorem getCollected_whitespace_runid_counterexample :
    (" " : String) ≠ ""
    ∧ sampleRun.id ≠ " "
    ∧ getCollectedTool [sampleRun] "" " "
      = Except.ok ("run-2", [sampleValue], 1) := by
  exact ⟨by decide, by decide, rfl⟩

/-- Claim C10 (amended): a run_id argument that is non-empty after whitespace
trimming and matches no stored run makes get_collected fail with "no
collection runs found" — no fallback to the latest run, even when the history
is non-empty — while a run_id that trims to empty (absent, empty, or
whitespace-only) selects the latest run. -/
theorem getCollected_unmatched_runid_errors (rs : List collectionRun)
    (resourceIdArg runIdArg : String) :
    (strVal runIdArg ≠ "" → (∀ r ∈ rs, r.id ≠ strVal runIdArg) →
      getCollectedTool rs resourceIdArg runIdArg
        = Except.error "no collection runs found")
    ∧ (strVal runIdArg = "" → ∀ latest, rs.getLast? = some latest →
      getCollectedTool rs resourceIdArg runIdArg
        = Except.ok (latest.id,
            (if strVal resourceIdArg ≠ ""
             then latest.values.filter (fun v => v.resourceId == strVal resourceIdArg)
             else latest.values),
            (if strVal resourceIdArg ≠ ""
             then latest.values.filter (fun v => v.resourceId == strVal resourceIdArg)
             else latest.values).length)) := by
  constructor
  · intro hne hnone
    have hfind : rs.find? (fun r => r.id == strVal runIdArg) = none := by
      rw [List.find?_eq_none]
      intro r hr
      simp [hnone r hr]
    simp only [getCollectedTool]
    rw [if_pos hne, hfind]
  · intro hemp latest hl
    have hlen : rs.length > 0 := by
      cases rs with
      | nil => simp at hl
      | cons a as => simp
    simp only [getCollectedTool]
    rw [if_neg (by simp [hemp]), if_pos hlen, hl]

theorem getCollected_unmatched_runid_errors_witness :
    getCollectedTool [sampleRun] "" "missing-run"
      = Except.error "no collection runs found" := by
  exact (getCollected_unmatched_runid_errors [sampleRun] "" "missing-run").1
    (by decide) (by decide)
